import Mathlib

/-!
# rest-data-archiver: alert notifier and S3 archive uploader

A shallow embedding of `alert/alert.go` and `aws/s3.go`.

Go strings are modelled as `String`, `[]byte` as `List UInt8`, and `error` values by their
text (`Option String`, `none` being `nil`).  Calls into the AWS SDK, `encoding/json` and the
clock are collaborators outside the repository: their outcomes are inputs to the model, and
every effect the code has on them (requests issued, log lines written, records pushed on a
channel) is recorded in the value the model returns.
-/

set_option autoImplicit false

/-- Go `[]byte`. -/
abbrev Bytes := List UInt8

/-- The bytes of a text, as in the Go conversion `[]byte(s)`. -/
def jsonText (s : String) : Bytes := s.data.flatMap String.utf8EncodeChar

/-- The outcome of `json.Unmarshal(data, &v)`: the target after the call (the library may have
filled part of it before failing) and the returned error.  The decoder belongs to the Go standard
library, so the model takes it as an argument. -/
abbrev Unmarshaler (α : Type) := Bytes → α → α × Option String

namespace Alert

/-- SES `types.Content`. -/
structure Content where
  Charset : String
  Data : String
deriving DecidableEq, Repr

/-- SES `types.Body` (only the text part is set by the code). -/
structure Body where
  Text : Content
deriving DecidableEq, Repr

/-- SES `types.Message`. -/
structure Message where
  Subject : Content
  Body : Body
deriving DecidableEq, Repr

/-- SES `types.Destination` (only `ToAddresses` is set by the code). -/
structure Destination where
  ToAddresses : List String
deriving DecidableEq, Repr

/-- SES `ses.SendEmailInput`. -/
structure SendEmailInput where
  Destination : Destination
  Message : Message
  Source : String
deriving DecidableEq, Repr

/-- SES `ses.SendEmailOutput`: the provider-assigned message identifier, a `*string` that is
`none` when the response carries no identifier. -/
structure SendEmailOutput where
  MessageId : Option String
deriving DecidableEq, Repr

/-- A failed `SendEmail` call of the SDK: the `%+v` rendering of the result value it returned
along with the error, and the text of the error. -/
structure SendFailure where
  result : String
  err : String
deriving DecidableEq, Repr

/-- The SES client handle.  `SendEmail n input` is the outcome of the `n`-th request (counting
from 0) issued through the client, when that request is `input`: a failure, or the returned
`*ses.SendEmailOutput` (`none` for a nil result) with a nil error. -/
structure SESClient where
  SendEmail : Nat → SendEmailInput → Except SendFailure (Option SendEmailOutput)

/-- The struct `Config` of `alert.go`; `sesClient` is `none` for the nil pointer. -/
structure Config where
  AWSRegion : String
  CharSet : String
  ReturnToAddr : String
  SubjectText : String
  RecipientEmails : List String
  AWSAccessKeyID : String
  AWSSecretAccessKey : String
  sesClient : Option SESClient

/-- The SDK entry point used by `setSESClient`: `config.LoadDefaultConfig` with the region and
the static credentials, followed by `ses.NewFromConfig`.  It yields a client or an error text. -/
abbrev SESClientFactory := String → String → String → Except String SESClient

/-- What `SendEmail` does to the outside world, in order. -/
inductive Event where
  | loadDefaultConfig (region accessKeyID secretAccessKey : String)
  | sesSendEmail (input : SendEmailInput)
  | log (line : String)
deriving DecidableEq, Repr

/-- The lines written with `log.Printf`, in order. -/
def logLines : List Event → List String
  | [] => []
  | Event.log l :: es => l :: logLines es
  | _ :: es => logLines es

/-- The send requests issued to SES, in order. -/
def sendRequests : List Event → List SendEmailInput
  | [] => []
  | Event.sesSendEmail i :: es => i :: sendRequests es
  | _ :: es => sendRequests es

/-- The client initialisations attempted, in order. -/
def clientInits : List Event → List (String × String × String)
  | [] => []
  | Event.loadDefaultConfig r k s :: es => (r, k, s) :: clientInits es
  | _ :: es => clientInits es

/-- `func (c *Config) setSESClient() error`: the updated config, the error and the events. -/
def Config.setSESClient (sdk : SESClientFactory) (c : Config) : Config × Option String × List Event :=
  match sdk c.AWSRegion c.AWSAccessKeyID c.AWSSecretAccessKey with
  | .error err => (c, some err, [Event.loadDefaultConfig c.AWSRegion c.AWSAccessKeyID c.AWSSecretAccessKey])
  | .ok client =>
    ({ c with sesClient := some client }, none,
      [Event.loadDefaultConfig c.AWSRegion c.AWSAccessKeyID c.AWSSecretAccessKey])

/-- `func sendEmail(msg types.Message, to string, c Config) error`, as the `n`-th request of the
client (`toAddr` is the parameter `to`), with the events it causes.  The result `none` is a
panic: the call through a nil client, or the dereference `*result.MessageId` of a nil result
or of a nil identifier after a send without error; `some err` is the returned error. -/
def sendEmail (n : Nat) (msg : Message) (toAddr : String) (c : Config) :
    Option (Option String) × List Event :=
  match c.sesClient with
  | none => (none, [])
  | some client =>
    let input : SendEmailInput :=
      { Destination := { ToAddresses := [toAddr] }, Message := msg, Source := c.ReturnToAddr }
    match client.SendEmail n input with
    | .error f =>
      (some (some ("error sending email, result: " ++ f.result ++ ", error: " ++ f.err)),
        [Event.sesSendEmail input])
    | .ok none => (none, [Event.sesSendEmail input])
    | .ok (some result) =>
      match result.MessageId with
      | none => (none, [Event.sesSendEmail input])
      | some messageId =>
        (some none, [Event.sesSendEmail input,
          Event.log ("alert message sent to " ++ toAddr ++ ", message ID: " ++ messageId)])

/-- The `for _, to := range c.RecipientEmails` loop of `SendEmail`, started at request number `n`
with the current `lastError` and `failures`; it returns their final values (`none` when a send
panicked, which ends the loop) and the events. -/
def sendLoop (msg : Message) (c : Config) :
    Nat → List String → Option String → List String →
      Option (Option String × List String) × List Event
  | _, [], lastError, failures => (some (lastError, failures), [])
  | n, toAddr :: rest, lastError, failures =>
    match sendEmail n msg toAddr c with
    | (none, ev) => (none, ev)
    | (some (some err), ev) =>
      match sendLoop msg c (n + 1) rest (some err) (failures ++ [toAddr]) with
      | (r, evs) => (r, ev ++ evs)
    | (some none, ev) =>
      match sendLoop msg c (n + 1) rest lastError failures with
      | (r, evs) => (r, ev ++ evs)

/-- One run of `SendEmail`: the events it caused, in order, and whether it ended in a panic
instead of returning. -/
structure Run where
  events : List Event
  panicked : Bool
deriving DecidableEq, Repr

/-- `func SendEmail(c Config, body string)`. -/
def SendEmail (sdk : SESClientFactory) (c : Config) (body : String) : Run :=
  if c.AWSAccessKeyID = "" ∨ c.AWSSecretAccessKey = "" then
    { events := [Event.log "AWS credentials not provided for email alerts"], panicked := false }
  else
    match c.setSESClient sdk with
    | (_, some err, ev) =>
      { events := ev ++ [Event.log ("error loading AWS config: " ++ err)], panicked := false }
    | (c, none, ev) =>
      let msg : Message :=
        { Subject := { Charset := c.CharSet, Data := c.SubjectText },
          Body := { Text := { Charset := c.CharSet, Data := body } } }
      match sendLoop msg c 0 c.RecipientEmails none [] with
      | (none, evs) => { events := ev ++ evs, panicked := true }
      | (some (lastError, failures), evs) =>
        match lastError with
        | some e =>
          let addresses := String.intercalate ", " failures
          { events := ev ++ evs ++ [Event.log ("Error sending email from '" ++ c.ReturnToAddr ++
              "' to '" ++ addresses ++ "': " ++ e)],
            panicked := false }
        | none => { events := ev ++ evs, panicked := false }

/-- The message `SendEmail` builds from the config and the body. -/
def alertMessage (c : Config) (body : String) : Message :=
  { Subject := { Charset := c.CharSet, Data := c.SubjectText },
    Body := { Text := { Charset := c.CharSet, Data := body } } }

/-- The request for one recipient: one destination address, the given message and source. -/
def requestTo (msg : Message) (source : String) (toAddr : String) : SendEmailInput :=
  { Destination := { ToAddresses := [toAddr] }, Message := msg, Source := source }

/-- The text of the error `sendEmail` returns for a failed request. -/
def sendErrorText (f : SendFailure) : String :=
  "error sending email, result: " ++ f.result ++ ", error: " ++ f.err

/-- The failing sends among the recipients `recips`, numbered from `n`: for each position whose
request the client rejects, in list order, the address and the error text of that send. -/
def failedFrom (client : SESClient) (msg : Message) (source : String) (n : Nat)
    (recips : List String) : List (String × String) :=
  (recips.enumFrom n).filterMap fun p =>
    match client.SendEmail p.1 (requestTo msg source p.2) with
    | .error f => some (p.2, sendErrorText f)
    | .ok _ => none

/-- The failing sends of one `SendEmail` call through `client`. -/
def failedSends (client : SESClient) (c : Config) (body : String) : List (String × String) :=
  failedFrom client (alertMessage c body) c.ReturnToAddr 0 c.RecipientEmails

/-- Every send among the recipients `recips`, numbered from `n`, that the client answers
without error returns a result that carries a message identifier. -/
def acceptedCarryId (client : SESClient) (msg : Message) (source : String) (n : Nat)
    (recips : List String) : Bool :=
  (recips.enumFrom n).all fun p =>
    match client.SendEmail p.1 (requestTo msg source p.2) with
    | .error _ => true
    | .ok none => false
    | .ok (some result) => result.MessageId.isSome

/-- A log line has the form of the consolidated failure line. -/
def isConsolidatedLine (l : String) : Bool :=
  decide ("Error sending email from '".data <+: l.data)

/-- A log line reports an error: the client-initialisation failure line or the consolidated
send-failure line. -/
def isErrorLine (l : String) : Bool :=
  decide ("error loading AWS config: ".data <+: l.data) || isConsolidatedLine l

/-- The consolidated failure line for a sender, the failed addresses and an error text. -/
def consolidatedLine (source : String) (failed : List String) (e : String) : String :=
  "Error sending email from '" ++ source ++ "' to '" ++ String.intercalate ", " failed ++
    "': " ++ e

end Alert

namespace Syslog

/-- Go `syslog.Priority`, an integer. -/
abbrev Priority := Nat

/-- Go `syslog.LOG_ALERT`. -/
def LOG_ALERT : Priority := 1

/-- Go `syslog.LOG_INFO`. -/
def LOG_INFO : Priority := 6

end Syslog

namespace Internal

/-- Modelled from the spec: the struct `internal.DestinationConfig` is declared outside the files
at hand; `s3.go` reads its field `AdapterConfig` (the JSON-shaped destination settings) and copies
the value whole.  Its other fields are the parameter `ρ`. -/
structure DestinationConfig (ρ : Type) where
  AdapterConfig : Bytes
  other : ρ
deriving DecidableEq, Repr

/-- Modelled from the spec: the struct `internal.EventLogItem` is declared outside the files at
hand; it is the event log record, a severity level and a message text. -/
structure EventLogItem where
  Level : Syslog.Priority
  Message : String
deriving DecidableEq, Repr

end Internal

namespace Aws

/-- The constant `DefaultObjectNamePrefix`. -/
def DefaultObjectNamePrefix : String := "data_"

/-- Modelled from the spec: the struct `Config` of package `aws` is declared outside the files at
hand; `s3.go` uses its fields `Region`, `AccessKeyId` and `SecretAccessKey` (the region and the
access credentials of the upload configuration). -/
structure Config where
  Region : String
  AccessKeyId : String
  SecretAccessKey : String
deriving DecidableEq, Repr

/-- The struct `S3Config`. -/
structure S3Config where
  AwsConfig : Config
  BucketName : String
deriving DecidableEq, Repr

/-- The struct `S3Set`. -/
structure S3Set where
  ObjectNamePrefix : String
deriving DecidableEq, Repr

/-- The struct `S3Adapter`. -/
structure S3Adapter (ρ : Type) where
  DestinationConfig : Internal.DestinationConfig ρ
  S3Config : Aws.S3Config
  S3Set : Aws.S3Set
deriving DecidableEq, Repr

/-- The zero value of `S3Config`. -/
def S3Config.zero : S3Config :=
  { AwsConfig := { Region := "", AccessKeyId := "", SecretAccessKey := "" }, BucketName := "" }

/-- The zero value of `S3Set`. -/
def S3Set.zero : S3Set := { ObjectNamePrefix := "" }

/-- The zero value of `S3Adapter` (`var s S3Adapter`); `z` is the zero value of the fields of
`internal.DestinationConfig` that the model does not name. -/
def S3Adapter.zero {ρ : Type} (z : ρ) : S3Adapter ρ :=
  { DestinationConfig := { AdapterConfig := [], other := z },
    S3Config := S3Config.zero, S3Set := S3Set.zero }

/-- `func readConfig(data []byte) (S3Adapter, error)`. -/
def readConfig {ρ : Type} (z : ρ) (unmarshal : Unmarshaler S3Config) (data : Bytes) :
    S3Adapter ρ × Option String :=
  let s : S3Adapter ρ := S3Adapter.zero z
  match unmarshal data s.S3Config with
  | (cfg, some err) => ({ s with S3Config := cfg }, some ("error unmarshaling AwsConfig: " ++ err))
  | (cfg, none) =>
    let s : S3Adapter ρ := { s with S3Config := cfg }
    if s.S3Config.BucketName = "" then
      (s, some "config is missing an S3 bucket name")
    else if s.S3Config.AwsConfig.Region = "" then
      (s, some "config is missing an AWS region")
    else if s.S3Config.AwsConfig.AccessKeyId = "" then
      (s, some "config is missing an AWS access key")
    else if s.S3Config.AwsConfig.SecretAccessKey = "" then
      (s, some "config is missing an AWS secret access key")
    else
      (s, none)

/-- `func NewS3Destination(destinationConfig internal.DestinationConfig)
(internal.Destination, error)`: the destination (`none` for nil) and the error. -/
def NewS3Destination {ρ : Type} (z : ρ) (unmarshal : Unmarshaler S3Config)
    (destinationConfig : Internal.DestinationConfig ρ) : Option (S3Adapter ρ) × Option String :=
  match readConfig z unmarshal destinationConfig.AdapterConfig with
  | (_, some err) => (none, some ("error reading S3 destination config: " ++ err))
  | (s, none) => (some { s with DestinationConfig := destinationConfig }, none)

/-- `func (s *S3Adapter) ForSet(setName string, setConfigJson json.RawMessage) error`: the adapter
after the call and the error. -/
def S3Adapter.ForSet {ρ : Type} (unmarshal : Unmarshaler Aws.S3Set) (s : S3Adapter ρ)
    (setName : String) (setConfigJson : Bytes) : S3Adapter ρ × Option String :=
  match unmarshal setConfigJson Aws.S3Set.zero with
  | (_, some err) => (s, some err)
  | (setConfig, none) =>
    let s : S3Adapter ρ := { s with S3Set := setConfig }
    if s.S3Set.ObjectNamePrefix = "" then
      ({ s with S3Set := { s.S3Set with
          ObjectNamePrefix := setName ++ "/" ++ DefaultObjectNamePrefix } }, none)
    else
      (s, none)

/-- S3 `s3.PutObjectInput` (the fields the code sets). -/
structure PutObjectInput where
  Bucket : String
  Key : String
  Body : Bytes
deriving DecidableEq, Repr

/-- The S3 client handle: `PutObject input` is the error of the upload, `none` on success. -/
structure S3Client where
  PutObject : PutObjectInput → Option String

/-- The SDK entry point used by `newS3Client`: `config.LoadDefaultConfig` with the region and the
static credentials, followed by `s3.NewFromConfig`.  It yields a client or an error text. -/
abbrev S3ClientFactory := String → String → String → Except String S3Client

/-- What `Write` does to the outside world, in order. -/
inductive S3Event where
  | loadDefaultConfig (region accessKeyId secretAccessKey : String)
  | putObject (input : PutObjectInput)
deriving DecidableEq, Repr

/-- The storage requests issued, in order. -/
def putRequests : List S3Event → List PutObjectInput
  | [] => []
  | S3Event.putObject i :: es => i :: putRequests es
  | _ :: es => putRequests es

/-- `func (s *S3Adapter) newS3Client() (*s3.Client, error)`, with the events. -/
def S3Adapter.newS3Client {ρ : Type} (sdk : S3ClientFactory) (s : S3Adapter ρ) :
    Except String S3Client × List S3Event :=
  (sdk s.S3Config.AwsConfig.Region s.S3Config.AwsConfig.AccessKeyId
      s.S3Config.AwsConfig.SecretAccessKey,
    [S3Event.loadDefaultConfig s.S3Config.AwsConfig.Region s.S3Config.AwsConfig.AccessKeyId
      s.S3Config.AwsConfig.SecretAccessKey])

/-- `func (s *S3Adapter) saveObject(data []byte, fileName string) error`, with the events. -/
def S3Adapter.saveObject {ρ : Type} (sdk : S3ClientFactory) (s : S3Adapter ρ) (data : Bytes)
    (fileName : String) : Option String × List S3Event :=
  match s.newS3Client sdk with
  | (.error err, ev) => (some ("error initializing S3 client: " ++ err), ev)
  | (.ok client, ev) =>
    let input : PutObjectInput := { Bucket := s.S3Config.BucketName, Key := fileName, Body := data }
    match client.PutObject input with
    | some err =>
      (some ("error saving data to " ++ s.S3Config.BucketName ++ "/" ++ fileName ++ ": " ++ err),
        ev ++ [S3Event.putObject input])
    | none => (none, ev ++ [S3Event.putObject input])

/-- `func (s *S3Adapter) Write(data []byte, eventLog chan<- internal.EventLogItem) error`.
`now` is the value of `time.Now().UnixNano()`, `eventLog` the records sent on the channel so
far; the result is the returned error, the records sent on the channel after the call, and the
events. -/
def S3Adapter.Write {ρ : Type} (sdk : S3ClientFactory) (now : Int) (s : S3Adapter ρ) (data : Bytes)
    (eventLog : List Internal.EventLogItem) :
    Option String × List Internal.EventLogItem × List S3Event :=
  let filename := s.S3Set.ObjectNamePrefix ++ toString now
  match s.saveObject sdk data filename with
  | (some err, ev) =>
    (some err,
      eventLog ++ [{ Level := Syslog.LOG_ALERT, Message := "error saving to S3: " ++ err }], ev)
  | (none, ev) =>
    (none,
      eventLog ++ [{ Level := Syslog.LOG_INFO,
                     Message := "saved to " ++ filename ++ " on bucket " ++ s.S3Config.BucketName }],
      ev)

end Aws

/-! ## Reading a decimal rendering back -/

/-- The number written by a list of decimal digit characters. -/
def decodeDigits (cs : List Char) : Nat := cs.foldl (fun a c => 10 * a + (c.toNat - 48)) 0

/-- The integer written by an optional minus sign followed by decimal digits. -/
def decodeInt : List Char → Int
  | '-' :: cs => -(decodeDigits cs : Int)
  | cs => (decodeDigits cs : Int)

/-! ## Sample inputs -/

namespace Alert

/-- A client that accepts the request numbered 1 and rejects every other one. -/
def exampleClient : SESClient :=
  ⟨fun n _ =>
    if n = 1 then .ok (some ⟨some "0100018f-01"⟩)
    else .error ⟨"<nil>", "rejected #" ++ toString n⟩⟩

/-- A client that rejects the request numbered 0 and answers every other one without error but
without a message identifier. -/
def rejectThenNoIdClient : SESClient :=
  ⟨fun n _ => if n = 0 then .error ⟨"<nil>", "rejected #0"⟩ else .ok (some ⟨none⟩)⟩

/-- An SDK whose client initialisation succeeds with `rejectThenNoIdClient`. -/
def rejectThenNoIdSdk : SESClientFactory := fun _ _ _ => .ok rejectThenNoIdClient

/-- A client that answers every request without error but without a message identifier. -/
def noIdClient : SESClient := ⟨fun _ _ => .ok (some ⟨none⟩)⟩

/-- An SDK whose client initialisation succeeds with `noIdClient`. -/
def noIdSdk : SESClientFactory := fun _ _ _ => .ok noIdClient

/-- An SDK whose client initialisation succeeds with `exampleClient`. -/
def exampleSdk : SESClientFactory := fun _ _ _ => .ok exampleClient

/-- An SDK whose client initialisation fails. -/
def failingSdk : SESClientFactory := fun _ _ _ => .error "invalid configuration"

/-- A config with credentials and three recipients. -/
def exampleConfig : Config :=
  { AWSRegion := "us-east-1", CharSet := "UTF-8", ReturnToAddr := "archiver@example.org",
    SubjectText := "archive failed", RecipientEmails := ["a@example.org", "b@example.org",
      "c@example.org"],
    AWSAccessKeyID := "AKIDEXAMPLE", AWSSecretAccessKey := "secret", sesClient := none }

/-- A config with credentials and two recipients. -/
def exampleTwoConfig : Config :=
  { exampleConfig with RecipientEmails := ["a@example.org", "b@example.org"] }

/-- A config whose secret access key is empty. -/
def blankConfig : Config := { exampleConfig with AWSSecretAccessKey := "" }

/-- A config with credentials and no recipient. -/
def noRecipientConfig : Config := { exampleConfig with RecipientEmails := [] }

end Alert

namespace Aws

/-- A decoder that yields the value `v` for every document. -/
def constUnmarshal {α : Type} (v : α) : Unmarshaler α := fun _ _ => (v, none)

/-- A decoder of set configurations that knows two documents: the empty object, which leaves
the target as it is, and the object whose `ObjectNamePrefix` is "custom/". -/
def tableUnmarshal : Unmarshaler S3Set := fun data v =>
  if data = jsonText "\x7b\"ObjectNamePrefix\":\"custom/\"\x7d" then
    ({ ObjectNamePrefix := "custom/" }, none)
  else if data = jsonText "\x7b\x7d" then (v, none)
  else (v, some "invalid character")

/-- A complete adapter configuration. -/
def exampleS3Config : S3Config :=
  { AwsConfig := { Region := "us-east-1", AccessKeyId := "AKIDEXAMPLE", SecretAccessKey := "secret" },
    BucketName := "archive" }

/-- An adapter configuration without a region. -/
def noRegionConfig : S3Config :=
  { exampleS3Config with AwsConfig := { exampleS3Config.AwsConfig with Region := "" } }

/-- An adapter configuration whose four required fields are blanks. -/
def whitespaceConfig : S3Config :=
  { AwsConfig := { Region := " ", AccessKeyId := " ", SecretAccessKey := " " }, BucketName := " " }

/-- A destination configuration (its adapter settings are decoded by the sample decoders). -/
def exampleDestination : Internal.DestinationConfig String :=
  { AdapterConfig := jsonText "\x7b\x7d", other := "s3" }

/-- An adapter on which an earlier `ForSet` call left the prefix "users/data_". -/
def exampleAdapter : S3Adapter String :=
  { DestinationConfig := exampleDestination, S3Config := exampleS3Config,
    S3Set := { ObjectNamePrefix := "users/data_" } }

/-- An SDK whose client accepts every upload. -/
def acceptingSdk : S3ClientFactory := fun _ _ _ => .ok ⟨fun _ => none⟩

/-- An SDK whose client rejects every upload. -/
def rejectingSdk : S3ClientFactory := fun _ _ _ => .ok ⟨fun _ => some "AccessDenied"⟩

end Aws

/-! ## Alert notifier -/

namespace Alert

theorem logLines_append (xs ys : List Event) : logLines (xs ++ ys) = logLines xs ++ logLines ys := by
  induction xs with
  | nil => rfl
  | cons e es ih => cases e <;> simp [logLines, ih]

theorem sendRequests_append (xs ys : List Event) :
    sendRequests (xs ++ ys) = sendRequests xs ++ sendRequests ys := by
  induction xs with
  | nil => rfl
  | cons e es ih => cases e <;> simp [sendRequests, ih]

theorem clientInits_append (xs ys : List Event) :
    clientInits (xs ++ ys) = clientInits xs ++ clientInits ys := by
  induction xs with
  | nil => rfl
  | cons e es ih => cases e <;> simp [clientInits, ih]

/-- The error the loop remembers: the text of the last failing send, else the initial value. -/
theorem foldl_lastError (fs : List (String × String)) (init : Option String) :
    fs.foldl (fun _ p => some p.2) init =
      match fs.getLast? with
      | some p => some p.2
      | none => init := by
  induction fs generalizing init with
  | nil => rfl
  | cons a rest ih =>
    rw [List.foldl_cons, ih]
    cases rest with
    | nil => rfl
    | cons b r =>
      rw [List.getLast?_cons_cons]
      cases h : (b :: r).getLast? with
      | none => simp at h
      | some p => rfl

theorem failedFrom_cons (client : SESClient) (msg : Message) (source : String) (n : Nat)
    (a : String) (rest : List String) :
    failedFrom client msg source n (a :: rest) =
      match client.SendEmail n (requestTo msg source a) with
      | .error f => (a, sendErrorText f) :: failedFrom client msg source (n + 1) rest
      | .ok _ => failedFrom client msg source (n + 1) rest := by
  simp only [failedFrom, List.enumFrom_cons, List.filterMap_cons]
  cases client.SendEmail n (requestTo msg source a) <;> rfl

/-- The loop of `SendEmail` through a set client whose accepted sends carry a message
identifier: it does not panic, it issues one request per recipient in order, it remembers the
last error and the failed addresses, and it writes no error line. -/
theorem sendLoop_spec (client : SESClient) (msg : Message) (c : Config)
    (hc : c.sesClient = some client) (recips : List String) :
    ∀ (n : Nat), acceptedCarryId client msg c.ReturnToAddr n recips = true →
      ∀ (lastError : Option String) (failures : List String),
      ∃ evs, sendLoop msg c n recips lastError failures =
          (some ((failedFrom client msg c.ReturnToAddr n recips).foldl
              (fun _ p => some p.2) lastError,
            failures ++ (failedFrom client msg c.ReturnToAddr n recips).map Prod.fst), evs) ∧
        sendRequests evs = recips.map (requestTo msg c.ReturnToAddr) ∧
        clientInits evs = [] ∧
        (logLines evs).filter isErrorLine = [] := by
  induction recips with
  | nil =>
    intro n _ lastError failures
    exact ⟨[], by simp [sendLoop, failedFrom], rfl, rfl, rfl⟩
  | cons a rest ih =>
    intro n hids lastError failures
    simp only [acceptedCarryId, List.enumFrom_cons, List.all_cons, Bool.and_eq_true] at hids
    obtain ⟨hhead, htail'⟩ := hids
    have htail : acceptedCarryId client msg c.ReturnToAddr (n + 1) rest = true := htail'
    cases hres : client.SendEmail n (requestTo msg c.ReturnToAddr a) with
    | error f =>
      obtain ⟨evs, h1, h2, h3, h4⟩ := ih (n + 1) htail (some (sendErrorText f)) (failures ++ [a])
      refine ⟨Event.sesSendEmail (requestTo msg c.ReturnToAddr a) :: evs, ?_, ?_, ?_, ?_⟩
      · have hr : client.SendEmail n
            { Destination := { ToAddresses := [a] }, Message := msg, Source := c.ReturnToAddr } =
            .error f := hres
        have h1' : sendLoop msg c (n + 1) rest
            (some ("error sending email, result: " ++ f.result ++ ", error: " ++ f.err))
            (failures ++ [a]) = _ := h1
        simp only [sendLoop, sendEmail, hc, hr, h1']
        rw [failedFrom_cons, hres]
        simp [requestTo]
      · simp [sendRequests, h2]
      · simp [clientInits, h3]
      · simp [logLines, h4]
    | ok r =>
      rw [hres] at hhead
      obtain ⟨result, messageId, hr', hid⟩ :
          ∃ result messageId, r = some result ∧ result.MessageId = some messageId := by
        cases r with
        | none => cases hhead
        | some result =>
          cases hm : result.MessageId with
          | none => simp [hm] at hhead
          | some messageId => exact ⟨result, messageId, rfl, hm⟩
      subst hr'
      obtain ⟨evs, h1, h2, h3, h4⟩ := ih (n + 1) htail lastError failures
      refine ⟨Event.sesSendEmail (requestTo msg c.ReturnToAddr a) ::
        Event.log ("alert message sent to " ++ a ++ ", message ID: " ++ messageId) :: evs,
        ?_, ?_, ?_, ?_⟩
      · have hr : client.SendEmail n
            { Destination := { ToAddresses := [a] }, Message := msg, Source := c.ReturnToAddr } =
            .ok (some result) := hres
        simp only [sendLoop, sendEmail, hc, hr, hid, h1]
        rw [failedFrom_cons, hres]
        simp [requestTo]
      · simp [sendRequests, h2]
      · simp [clientInits, h3]
      · simp [logLines, h4, isErrorLine, isConsolidatedLine, String.data_append]

theorem isErrorLine_of_isConsolidatedLine (l : String) (h : isConsolidatedLine l = true) :
    isErrorLine l = true := by
  simp [isErrorLine, h]

theorem filter_consolidated_nil (ls : List String) (h : ls.filter isErrorLine = []) :
    ls.filter isConsolidatedLine = [] := by
  rw [List.filter_eq_nil_iff] at h ⊢
  intro l hl hcons
  exact h l hl (isErrorLine_of_isConsolidatedLine l hcons)

theorem isConsolidatedLine_consolidatedLine (source : String) (failed : List String)
    (e : String) : isConsolidatedLine (consolidatedLine source failed e) = true := by
  simp [isConsolidatedLine, consolidatedLine, String.data_append]

/-- One run of `SendEmail` with non-empty credentials and a client that initialises and whose
accepted sends carry a message identifier: it returns, and the events are the initialisation,
the events of the loop, and the consolidated line when a send failed. -/
theorem SendEmail_run (sdk : SESClientFactory) (c : Config) (body : String) (client : SESClient)
    (hid : c.AWSAccessKeyID ≠ "") (hsecret : c.AWSSecretAccessKey ≠ "")
    (hinit : sdk c.AWSRegion c.AWSAccessKeyID c.AWSSecretAccessKey = .ok client)
    (hids : acceptedCarryId client (alertMessage c body) c.ReturnToAddr 0 c.RecipientEmails =
      true) :
    ∃ evs, SendEmail sdk c body =
        { events :=
            [Event.loadDefaultConfig c.AWSRegion c.AWSAccessKeyID c.AWSSecretAccessKey] ++ evs ++
            (match (failedSends client c body).getLast? with
            | some p => [Event.log (consolidatedLine c.ReturnToAddr
                ((failedSends client c body).map Prod.fst) p.2)]
            | none => []),
          panicked := false } ∧
      sendRequests evs = c.RecipientEmails.map (requestTo (alertMessage c body) c.ReturnToAddr) ∧
      clientInits evs = [] ∧
      (logLines evs).filter isErrorLine = [] := by
  obtain ⟨evs, h1, h2, h3, h4⟩ :=
    sendLoop_spec client (alertMessage c body) { c with sesClient := some client } rfl
      c.RecipientEmails 0 hids none []
  refine ⟨evs, ?_, h2, h3, h4⟩
  have h1' : sendLoop
      { Subject := { Charset := c.CharSet, Data := c.SubjectText },
        Body := { Text := { Charset := c.CharSet, Data := body } } }
      { c with sesClient := some client } 0 c.RecipientEmails none [] = _ := h1
  have hcred : ¬ (c.AWSAccessKeyID = "" ∨ c.AWSSecretAccessKey = "") := by
    intro h
    cases h with
    | inl h => exact hid h
    | inr h => exact hsecret h
  simp only [SendEmail, hcred, if_false, Config.setSESClient, hinit, h1', foldl_lastError]
  simp only [failedSends, List.nil_append]
  cases (failedFrom client (alertMessage c body) c.ReturnToAddr 0 c.RecipientEmails).getLast? with
  | none => simp
  | some p => simp [consolidatedLine]

/-- C1 fails as stated: of two recipients the first is rejected (k = 1) and the second is
answered without error and without a message identifier; `SendEmail` panics on that answer and
the consolidated line is never written. -/
theorem no_message_id_no_consolidated_line :
    (exampleTwoConfig.AWSAccessKeyID ≠ "" ∧ exampleTwoConfig.AWSSecretAccessKey ≠ "") ∧
    exampleTwoConfig.RecipientEmails = ["a@example.org", "b@example.org"] ∧
    (failedSends rejectThenNoIdClient exampleTwoConfig "disk full").map Prod.fst =
      ["a@example.org"] ∧
    (SendEmail rejectThenNoIdSdk exampleTwoConfig "disk full").panicked = true ∧
    (logLines (SendEmail rejectThenNoIdSdk exampleTwoConfig "disk full").events).countP
      isConsolidatedLine = 0 := by
  decide

/-- C1 amended: with non-empty credentials, an initialised client, and every send that is
answered without error carrying a message identifier, `SendEmail` returns, and the log lines of
the consolidated form are none when no send fails (k = 0) and otherwise the single line naming
the sender, the failed addresses in recipient-list order joined by ", ", and the error text of
the last failing send; so that line is counted 0 times when k = 0 and once when k ≥ 1. -/
theorem SendEmail_consolidated_line (sdk : SESClientFactory) (c : Config) (body : String)
    (client : SESClient) (hid : c.AWSAccessKeyID ≠ "") (hsecret : c.AWSSecretAccessKey ≠ "")
    (hinit : sdk c.AWSRegion c.AWSAccessKeyID c.AWSSecretAccessKey = .ok client)
    (hids : acceptedCarryId client (alertMessage c body) c.ReturnToAddr 0 c.RecipientEmails =
      true) :
    (SendEmail sdk c body).panicked = false ∧
      (logLines (SendEmail sdk c body).events).filter isConsolidatedLine =
        (match (failedSends client c body).getLast? with
          | none => []
          | some p => ["Error sending email from '" ++ c.ReturnToAddr ++ "' to '" ++
              String.intercalate ", " ((failedSends client c body).map Prod.fst) ++ "': " ++ p.2]) ∧
      (logLines (SendEmail sdk c body).events).countP isConsolidatedLine =
        (if (failedSends client c body).length = 0 then 0 else 1) := by
  obtain ⟨evs, hrun, -, -, hlog⟩ := SendEmail_run sdk c body client hid hsecret hinit hids
  have hnone := filter_consolidated_nil _ hlog
  have hfilter : (logLines (SendEmail sdk c body).events).filter isConsolidatedLine =
      (match (failedSends client c body).getLast? with
        | none => []
        | some p => ["Error sending email from '" ++ c.ReturnToAddr ++ "' to '" ++
            String.intercalate ", " ((failedSends client c body).map Prod.fst) ++ "': " ++ p.2]) := by
    rw [hrun]
    cases hlast : (failedSends client c body).getLast? with
    | none => simp [logLines_append, logLines, hnone]
    | some p =>
      have hc := isConsolidatedLine_consolidatedLine c.ReturnToAddr
        ((failedSends client c body).map Prod.fst) p.2
      simp [logLines_append, logLines, hnone, hc]
      rfl
  refine ⟨by rw [hrun], hfilter, ?_⟩
  rw [List.countP_eq_length_filter, hfilter]
  cases hfs : failedSends client c body with
  | nil => simp
  | cons a rest =>
    cases hlast : (a :: rest).getLast? with
    | none => simp at hlast
    | some p => simp

/-- C1 amended, on three recipients of which the first and the third are rejected. -/
theorem SendEmail_consolidated_line_witness :
    (exampleConfig.AWSAccessKeyID ≠ "" ∧ exampleConfig.AWSSecretAccessKey ≠ "") ∧
    acceptedCarryId exampleClient (alertMessage exampleConfig "disk full")
      exampleConfig.ReturnToAddr 0 exampleConfig.RecipientEmails = true ∧
    (logLines (SendEmail exampleSdk exampleConfig "disk full").events).filter
        isConsolidatedLine =
      ["Error sending email from 'archiver@example.org' to 'a@example.org, c@example.org': " ++
        "error sending email, result: <nil>, error: rejected #2"] :=
  ⟨by decide, by decide,
    (SendEmail_consolidated_line exampleSdk exampleConfig "disk full" exampleClient
      (by decide) (by decide) rfl (by decide)).2.1⟩

/-- C2 fails as stated: of three recipients the first is answered without error and without a
message identifier; `SendEmail` panics on that answer and the two later recipients are never
requested. -/
theorem no_message_id_stops_requests :
    (exampleConfig.AWSAccessKeyID ≠ "" ∧ exampleConfig.AWSSecretAccessKey ≠ "") ∧
    exampleConfig.RecipientEmails = ["a@example.org", "b@example.org", "c@example.org"] ∧
    (SendEmail noIdSdk exampleConfig "disk full").panicked = true ∧
    (sendRequests (SendEmail noIdSdk exampleConfig "disk full").events).map
        (fun r => r.Destination.ToAddresses) = [["a@example.org"]] := by
  decide

/-- C2 amended: with non-empty credentials, an initialised client, and every send that is
answered without error carrying a message identifier, `SendEmail` returns and the send requests
issued are, in order, one per entry of the recipient list whatever sends fail; each has that
entry as its single destination, and all share the source address and the message (subject and
body with the config's character set). -/
theorem SendEmail_requests (sdk : SESClientFactory) (c : Config) (body : String)
    (client : SESClient) (hid : c.AWSAccessKeyID ≠ "") (hsecret : c.AWSSecretAccessKey ≠ "")
    (hinit : sdk c.AWSRegion c.AWSAccessKeyID c.AWSSecretAccessKey = .ok client)
    (hids : acceptedCarryId client (alertMessage c body) c.ReturnToAddr 0 c.RecipientEmails =
      true) :
    (SendEmail sdk c body).panicked = false ∧
      sendRequests (SendEmail sdk c body).events =
        c.RecipientEmails.map fun a =>
          { Destination := { ToAddresses := [a] },
            Message := { Subject := { Charset := c.CharSet, Data := c.SubjectText },
                         Body := { Text := { Charset := c.CharSet, Data := body } } },
            Source := c.ReturnToAddr } := by
  obtain ⟨evs, hrun, hreq, -, -⟩ := SendEmail_run sdk c body client hid hsecret hinit hids
  rw [hrun]
  refine ⟨rfl, ?_⟩
  cases (failedSends client c body).getLast? with
  | none => simp [sendRequests_append, sendRequests, hreq, requestTo, alertMessage]
  | some p => simp [sendRequests_append, sendRequests, hreq, requestTo, alertMessage]

/-- C2 amended, on three recipients of which the first and the third are rejected. -/
theorem SendEmail_requests_witness :
    (exampleConfig.AWSAccessKeyID ≠ "" ∧ exampleConfig.AWSSecretAccessKey ≠ "") ∧
    acceptedCarryId exampleClient (alertMessage exampleConfig "disk full")
      exampleConfig.ReturnToAddr 0 exampleConfig.RecipientEmails = true ∧
    (sendRequests (SendEmail exampleSdk exampleConfig "disk full").events).map
        (fun r => (r.Destination.ToAddresses, r.Source)) =
      [(["a@example.org"], "archiver@example.org"), (["b@example.org"], "archiver@example.org"),
        (["c@example.org"], "archiver@example.org")] :=
  ⟨by decide, by decide, by
    rw [(SendEmail_requests exampleSdk exampleConfig "disk full" exampleClient
      (by decide) (by decide) rfl (by decide)).2]
    decide⟩

/-- C3: when the access key id or the secret access key is empty, `SendEmail` does nothing but
write the one warning line and return: no client initialisation, no send request. -/
theorem SendEmail_blank_credentials (sdk : SESClientFactory) (c : Config) (body : String)
    (h : c.AWSAccessKeyID = "" ∨ c.AWSSecretAccessKey = "") :
    SendEmail sdk c body =
        { events := [Event.log "AWS credentials not provided for email alerts"],
          panicked := false } ∧
      clientInits (SendEmail sdk c body).events = [] ∧
      sendRequests (SendEmail sdk c body).events = [] ∧
      logLines (SendEmail sdk c body).events =
        ["AWS credentials not provided for email alerts"] := by
  have hrun : SendEmail sdk c body =
      { events := [Event.log "AWS credentials not provided for email alerts"],
        panicked := false } := by
    simp only [SendEmail, h, if_true]
  rw [hrun]
  exact ⟨rfl, rfl, rfl, rfl⟩

/-- C3, on a config whose secret access key is empty. -/
theorem SendEmail_blank_credentials_witness :
    (blankConfig.AWSAccessKeyID = "" ∨ blankConfig.AWSSecretAccessKey = "") ∧
    SendEmail exampleSdk blankConfig "disk full" =
      { events := [Event.log "AWS credentials not provided for email alerts"],
        panicked := false } :=
  ⟨by decide, (SendEmail_blank_credentials exampleSdk blankConfig "disk full" (by decide)).1⟩

/-- C4 fails as stated: with an empty recipient list, credentials present and a client
initialisation that fails, `SendEmail` writes the error line "error loading AWS config: ...". -/
theorem empty_recipients_init_error_logged :
    noRecipientConfig.RecipientEmails = [] ∧
    (SendEmail failingSdk noRecipientConfig "disk full").panicked = false ∧
    logLines (SendEmail failingSdk noRecipientConfig "disk full").events =
      ["error loading AWS config: invalid configuration"] ∧
    isErrorLine "error loading AWS config: invalid configuration" = true := by
  decide

/-- C4 amended: with an empty recipient list `SendEmail` returns, issues no send request and
writes no consolidated failure line; the client is still initialised when both credentials are
present.  Its log is the credentials warning when a credential is empty, the error line
"error loading AWS config: <error>" when the client initialisation fails, and empty when the
initialisation succeeds. -/
theorem SendEmail_no_recipient (sdk : SESClientFactory) (c : Config) (body : String)
    (hempty : c.RecipientEmails = []) :
    (SendEmail sdk c body).panicked = false ∧
      sendRequests (SendEmail sdk c body).events = [] ∧
      (logLines (SendEmail sdk c body).events).filter isConsolidatedLine = [] ∧
      clientInits (SendEmail sdk c body).events =
        (if c.AWSAccessKeyID = "" ∨ c.AWSSecretAccessKey = "" then []
          else [(c.AWSRegion, c.AWSAccessKeyID, c.AWSSecretAccessKey)]) ∧
      (logLines (SendEmail sdk c body).events).filter isErrorLine =
        (if c.AWSAccessKeyID = "" ∨ c.AWSSecretAccessKey = "" then []
          else
            match sdk c.AWSRegion c.AWSAccessKeyID c.AWSSecretAccessKey with
            | .error err => ["error loading AWS config: " ++ err]
            | .ok _ => []) ∧
      logLines (SendEmail sdk c body).events =
        (if c.AWSAccessKeyID = "" ∨ c.AWSSecretAccessKey = "" then
            ["AWS credentials not provided for email alerts"]
          else
            match sdk c.AWSRegion c.AWSAccessKeyID c.AWSSecretAccessKey with
            | .error err => ["error loading AWS config: " ++ err]
            | .ok _ => []) := by
  by_cases hcred : c.AWSAccessKeyID = "" ∨ c.AWSSecretAccessKey = ""
  · simp only [SendEmail, hcred, if_true]
    exact ⟨trivial, rfl, by decide, rfl, by decide, rfl⟩
  · cases hsdk : sdk c.AWSRegion c.AWSAccessKeyID c.AWSSecretAccessKey with
    | error err =>
      simp only [SendEmail, hcred, if_false, Config.setSESClient, hsdk]
      refine ⟨trivial, rfl, ?_, rfl, ?_, rfl⟩
      · simp [logLines, isConsolidatedLine, String.data_append]
      · simp [logLines, isErrorLine, String.data_append]
    | ok client =>
      simp only [SendEmail, hcred, if_false, Config.setSESClient, hsdk, hempty, sendLoop]
      exact ⟨trivial, rfl, rfl, rfl, rfl, rfl⟩

/-- C4 amended, on a config with credentials, no recipient and a failing initialisation. -/
theorem SendEmail_no_recipient_witness :
    noRecipientConfig.RecipientEmails = [] ∧
    sendRequests (SendEmail failingSdk noRecipientConfig "disk full").events = [] :=
  ⟨rfl, (SendEmail_no_recipient failingSdk noRecipientConfig "disk full" rfl).2.1⟩

end Alert

/-! ## Decimal rendering of integers -/

theorem digitChar_value (d : Nat) (h : d < 10) :
    (Nat.digitChar d).toNat - 48 = d ∧ Nat.digitChar d ≠ '-' := by
  interval_cases d <;> decide

theorem toDigitsCore_append (fuel : Nat) :
    ∀ (n : Nat) (ds : List Char),
      Nat.toDigitsCore 10 fuel n ds = Nat.toDigitsCore 10 fuel n [] ++ ds := by
  induction fuel with
  | zero => intro n ds; rfl
  | succ fuel ih =>
    intro n ds
    simp only [Nat.toDigitsCore]
    by_cases h : n / 10 = 0
    · simp [h]
    · simp only [h, if_false]
      rw [ih (n / 10) (Nat.digitChar (n % 10) :: ds), ih (n / 10) [Nat.digitChar (n % 10)]]
      simp

theorem decodeDigits_snoc (cs : List Char) (c : Char) :
    decodeDigits (cs ++ [c]) = 10 * decodeDigits cs + (c.toNat - 48) := by
  simp [decodeDigits, List.foldl_append]

theorem decodeDigits_toDigitsCore (fuel : Nat) :
    ∀ n : Nat, n < fuel → decodeDigits (Nat.toDigitsCore 10 fuel n []) = n := by
  induction fuel with
  | zero => intro n h; omega
  | succ fuel ih =>
    intro n hn
    have hd := (digitChar_value (n % 10) (Nat.mod_lt n (by decide))).1
    simp only [Nat.toDigitsCore]
    by_cases h : n / 10 = 0
    · simp only [h, if_true]
      have : decodeDigits [Nat.digitChar (n % 10)] = (Nat.digitChar (n % 10)).toNat - 48 := by
        simp [decodeDigits]
      rw [this, hd]
      omega
    · simp only [h, if_false]
      rw [toDigitsCore_append, decodeDigits_snoc, ih (n / 10) (by omega), hd]
      omega

theorem toDigitsCore_ne_minus (fuel : Nat) :
    ∀ (n : Nat), ∀ c ∈ Nat.toDigitsCore 10 fuel n [], c ≠ '-' := by
  induction fuel with
  | zero => intro n c hc; simp [Nat.toDigitsCore] at hc
  | succ fuel ih =>
    intro n c hc
    have hd := (digitChar_value (n % 10) (Nat.mod_lt n (by decide))).2
    simp only [Nat.toDigitsCore] at hc
    by_cases h : n / 10 = 0
    · simp only [h, if_true, List.mem_singleton] at hc
      rw [hc]; exact hd
    · simp only [h, if_false] at hc
      rw [toDigitsCore_append, List.mem_append, List.mem_singleton] at hc
      cases hc with
      | inl hc => exact ih _ c hc
      | inr hc => rw [hc]; exact hd

theorem decodeInt_toString (t : Int) : decodeInt (toString t).data = t := by
  cases t with
  | ofNat m =>
    show decodeInt (Nat.toDigits 10 m) = _
    have hne := toDigitsCore_ne_minus (m + 1) m
    have hdec := decodeDigits_toDigitsCore (m + 1) m (by omega)
    unfold Nat.toDigits
    cases hl : Nat.toDigitsCore 10 (m + 1) m [] with
    | nil => rw [hl] at hdec; simp [decodeInt, ← hdec, decodeDigits]
    | cons c cs =>
      rw [hl] at hne hdec
      have hc : c ≠ '-' := hne c (by simp)
      unfold decodeInt
      split
      · rename_i heq; simp at heq; exact absurd heq.1 hc
      · rw [hdec]; rfl
  | negSucc m =>
    show decodeInt ("-" ++ Nat.repr (m + 1)).data = _
    rw [String.data_append]
    show decodeInt ('-' :: Nat.toDigits 10 (m + 1)) = _
    simp only [decodeInt, Nat.toDigits]
    rw [decodeDigits_toDigitsCore (m + 1 + 1) (m + 1) (by omega)]
    rfl

theorem toString_int_injective (t1 t2 : Int) (h : toString t1 = toString t2) : t1 = t2 := by
  rw [← decodeInt_toString t1, ← decodeInt_toString t2, h]

theorem append_toString_ne (pre : String) (t1 t2 : Int) (h : t1 ≠ t2) :
    pre ++ toString t1 ≠ pre ++ toString t2 := by
  intro heq
  apply h
  apply toString_int_injective
  have := congrArg String.data heq
  rw [String.data_append, String.data_append] at this
  exact String.ext (List.append_cancel_left this)

/-! ## S3 archive uploader -/

namespace Aws

/-- The result of `readConfig` on settings that decode to `cfg`. -/
theorem readConfig_parsed {ρ : Type} (z : ρ) (unmarshal : Unmarshaler S3Config) (data : Bytes)
    (cfg : S3Config) (hparse : unmarshal data S3Config.zero = (cfg, none)) :
    (readConfig z unmarshal data : S3Adapter ρ × Option String) =
      ({ S3Adapter.zero z with S3Config := cfg },
        if cfg.BucketName = "" then some "config is missing an S3 bucket name"
        else if cfg.AwsConfig.Region = "" then some "config is missing an AWS region"
        else if cfg.AwsConfig.AccessKeyId = "" then some "config is missing an AWS access key"
        else if cfg.AwsConfig.SecretAccessKey = "" then
          some "config is missing an AWS secret access key"
        else none) := by
  have h : unmarshal data (S3Adapter.zero z).S3Config = (cfg, none) := hparse
  simp only [readConfig, h]
  by_cases h1 : cfg.BucketName = ""
  · simp [h1]
  · by_cases h2 : cfg.AwsConfig.Region = ""
    · simp [h1, h2]
    · by_cases h3 : cfg.AwsConfig.AccessKeyId = ""
      · simp [h1, h2, h3]
      · by_cases h4 : cfg.AwsConfig.SecretAccessKey = "" <;> simp [h1, h2, h3, h4]

/-- The result of `NewS3Destination` on settings that decode to `cfg`. -/
theorem NewS3Destination_parsed {ρ : Type} (z : ρ) (unmarshal : Unmarshaler S3Config)
    (dc : Internal.DestinationConfig ρ) (cfg : S3Config)
    (hparse : unmarshal dc.AdapterConfig S3Config.zero = (cfg, none)) :
    NewS3Destination z unmarshal dc =
      if cfg.BucketName = "" then
        (none, some "error reading S3 destination config: config is missing an S3 bucket name")
      else if cfg.AwsConfig.Region = "" then
        (none, some "error reading S3 destination config: config is missing an AWS region")
      else if cfg.AwsConfig.AccessKeyId = "" then
        (none, some "error reading S3 destination config: config is missing an AWS access key")
      else if cfg.AwsConfig.SecretAccessKey = "" then
        (none,
          some "error reading S3 destination config: config is missing an AWS secret access key")
      else
        (some { DestinationConfig := dc, S3Config := cfg, S3Set := { ObjectNamePrefix := "" } },
          none) := by
  simp only [NewS3Destination, readConfig_parsed z unmarshal dc.AdapterConfig cfg hparse]
  by_cases h1 : cfg.BucketName = ""
  · simp only [h1, if_true]; rfl
  · by_cases h2 : cfg.AwsConfig.Region = ""
    · simp only [h1, h2, if_true, if_false]; rfl
    · by_cases h3 : cfg.AwsConfig.AccessKeyId = ""
      · simp only [h1, h2, h3, if_true, if_false]; rfl
      · by_cases h4 : cfg.AwsConfig.SecretAccessKey = ""
        · simp only [h1, h2, h3, h4, if_true, if_false]; rfl
        · simp only [h1, h2, h3, h4, if_false]; rfl

/-- C5: on settings that parse and in which exactly one of bucket name, region, access key id,
secret access key is empty, `NewS3Destination` returns no destination and an error whose text
names that field. -/
theorem NewS3Destination_missing_field {ρ : Type} (z : ρ) (unmarshal : Unmarshaler S3Config)
    (dc : Internal.DestinationConfig ρ) (cfg : S3Config)
    (hparse : unmarshal dc.AdapterConfig S3Config.zero = (cfg, none)) :
    (cfg.BucketName = "" → cfg.AwsConfig.Region ≠ "" → cfg.AwsConfig.AccessKeyId ≠ "" →
        cfg.AwsConfig.SecretAccessKey ≠ "" →
        NewS3Destination z unmarshal dc = (none,
          some "error reading S3 destination config: config is missing an S3 bucket name")) ∧
      (cfg.BucketName ≠ "" → cfg.AwsConfig.Region = "" → cfg.AwsConfig.AccessKeyId ≠ "" →
        cfg.AwsConfig.SecretAccessKey ≠ "" →
        NewS3Destination z unmarshal dc = (none,
          some "error reading S3 destination config: config is missing an AWS region")) ∧
      (cfg.BucketName ≠ "" → cfg.AwsConfig.Region ≠ "" → cfg.AwsConfig.AccessKeyId = "" →
        cfg.AwsConfig.SecretAccessKey ≠ "" →
        NewS3Destination z unmarshal dc = (none,
          some "error reading S3 destination config: config is missing an AWS access key")) ∧
      (cfg.BucketName ≠ "" → cfg.AwsConfig.Region ≠ "" → cfg.AwsConfig.AccessKeyId ≠ "" →
        cfg.AwsConfig.SecretAccessKey = "" →
        NewS3Destination z unmarshal dc = (none,
          some "error reading S3 destination config: config is missing an AWS secret access key")) := by
  rw [NewS3Destination_parsed z unmarshal dc cfg hparse]
  refine ⟨?_, ?_, ?_, ?_⟩
  · intro h1 _ _ _; simp [h1]
  · intro h1 h2 _ _; simp [h1, h2]
  · intro h1 h2 h3 _; simp [h1, h2, h3]
  · intro h1 h2 h3 h4; simp [h1, h2, h3, h4]

/-- C5, on settings without a region. -/
theorem NewS3Destination_missing_field_witness :
    constUnmarshal noRegionConfig exampleDestination.AdapterConfig S3Config.zero =
        (noRegionConfig, none) ∧
    NewS3Destination "" (constUnmarshal noRegionConfig) exampleDestination =
      (none, some "error reading S3 destination config: config is missing an AWS region") :=
  ⟨rfl, (NewS3Destination_missing_field "" (constUnmarshal noRegionConfig) exampleDestination
    noRegionConfig rfl).2.1 (by decide) (by decide) (by decide) (by decide)⟩

/-- C9: on settings that parse, `NewS3Destination` succeeds exactly when the four required
fields are non-empty; the adapter it then returns holds the parsed settings, the caller's
destination config and an empty per-set prefix; and when it fails the error names the first
empty field in the order bucket name, region, access key, secret access key. -/
theorem NewS3Destination_presence_only {ρ : Type} (z : ρ) (unmarshal : Unmarshaler S3Config)
    (dc : Internal.DestinationConfig ρ) (cfg : S3Config)
    (hparse : unmarshal dc.AdapterConfig S3Config.zero = (cfg, none)) :
    ((NewS3Destination z unmarshal dc).2 = none ↔
        (cfg.BucketName ≠ "" ∧ cfg.AwsConfig.Region ≠ "" ∧ cfg.AwsConfig.AccessKeyId ≠ "" ∧
          cfg.AwsConfig.SecretAccessKey ≠ "")) ∧
      ((NewS3Destination z unmarshal dc).1 ≠ none ↔
        (cfg.BucketName ≠ "" ∧ cfg.AwsConfig.Region ≠ "" ∧ cfg.AwsConfig.AccessKeyId ≠ "" ∧
          cfg.AwsConfig.SecretAccessKey ≠ "")) ∧
      (cfg.BucketName ≠ "" → cfg.AwsConfig.Region ≠ "" → cfg.AwsConfig.AccessKeyId ≠ "" →
        cfg.AwsConfig.SecretAccessKey ≠ "" →
        NewS3Destination z unmarshal dc =
          (some { DestinationConfig := dc, S3Config := cfg, S3Set := { ObjectNamePrefix := "" } },
            none)) ∧
      (cfg.BucketName = "" →
        NewS3Destination z unmarshal dc = (none,
          some "error reading S3 destination config: config is missing an S3 bucket name")) ∧
      (cfg.BucketName ≠ "" → cfg.AwsConfig.Region = "" →
        NewS3Destination z unmarshal dc = (none,
          some "error reading S3 destination config: config is missing an AWS region")) ∧
      (cfg.BucketName ≠ "" → cfg.AwsConfig.Region ≠ "" → cfg.AwsConfig.AccessKeyId = "" →
        NewS3Destination z unmarshal dc = (none,
          some "error reading S3 destination config: config is missing an AWS access key")) ∧
      (cfg.BucketName ≠ "" → cfg.AwsConfig.Region ≠ "" → cfg.AwsConfig.AccessKeyId ≠ "" →
        cfg.AwsConfig.SecretAccessKey = "" →
        NewS3Destination z unmarshal dc = (none,
          some "error reading S3 destination config: config is missing an AWS secret access key")) := by
  rw [NewS3Destination_parsed z unmarshal dc cfg hparse]
  refine ⟨?_, ?_, ?_, ?_, ?_, ?_, ?_⟩
  · by_cases h1 : cfg.BucketName = ""
    · simp [h1]
    · by_cases h2 : cfg.AwsConfig.Region = ""
      · simp [h1, h2]
      · by_cases h3 : cfg.AwsConfig.AccessKeyId = ""
        · simp [h1, h2, h3]
        · by_cases h4 : cfg.AwsConfig.SecretAccessKey = "" <;> simp [h1, h2, h3, h4]
  · by_cases h1 : cfg.BucketName = ""
    · simp [h1]
    · by_cases h2 : cfg.AwsConfig.Region = ""
      · simp [h1, h2]
      · by_cases h3 : cfg.AwsConfig.AccessKeyId = ""
        · simp [h1, h2, h3]
        · by_cases h4 : cfg.AwsConfig.SecretAccessKey = "" <;> simp [h1, h2, h3, h4]
  · intro h1 h2 h3 h4; simp [h1, h2, h3, h4]
  · intro h1; simp [h1]
  · intro h1 h2; simp [h1, h2]
  · intro h1 h2 h3; simp [h1, h2, h3]
  · intro h1 h2 h3 h4; simp [h1, h2, h3, h4]

/-- C9, on settings whose four required fields are whitespace only: they are accepted. -/
theorem NewS3Destination_presence_only_witness :
    constUnmarshal whitespaceConfig exampleDestination.AdapterConfig S3Config.zero =
        (whitespaceConfig, none) ∧
    NewS3Destination "" (constUnmarshal whitespaceConfig) exampleDestination =
      (some { DestinationConfig := exampleDestination, S3Config := whitespaceConfig,
              S3Set := { ObjectNamePrefix := "" } }, none) :=
  ⟨rfl, (NewS3Destination_presence_only "" (constUnmarshal whitespaceConfig) exampleDestination
    whitespaceConfig rfl).2.2.1 (by decide) (by decide) (by decide) (by decide)⟩

/-- C6: after `ForSet` on a set configuration that parses, the adapter's prefix is the configured
prefix when that is non-empty and `setName ++ "/data_"` when it is empty, whatever the adapter
held before; so `ForSet("orders", ...)` gives "orders/data_" on the empty object and "custom/" on
the object that sets `ObjectNamePrefix` to "custom/", for a decoder that reads these two
documents as `encoding/json` does. -/
theorem ForSet_defaulting {ρ : Type} (unmarshal : Unmarshaler S3Set) (s : S3Adapter ρ) :
    (∀ (setName : String) (setConfigJson : Bytes) (setConfig : S3Set),
        unmarshal setConfigJson S3Set.zero = (setConfig, none) →
        (s.ForSet unmarshal setName setConfigJson).1.S3Set.ObjectNamePrefix =
          if setConfig.ObjectNamePrefix = "" then setName ++ "/data_"
          else setConfig.ObjectNamePrefix) ∧
      (unmarshal (jsonText "\x7b\x7d") S3Set.zero = (S3Set.zero, none) →
        (s.ForSet unmarshal "orders" (jsonText "\x7b\x7d")).1.S3Set.ObjectNamePrefix =
          "orders/data_") ∧
      (unmarshal (jsonText "\x7b\"ObjectNamePrefix\":\"custom/\"\x7d") S3Set.zero =
          ({ ObjectNamePrefix := "custom/" }, none) →
        (s.ForSet unmarshal "orders"
          (jsonText "\x7b\"ObjectNamePrefix\":\"custom/\"\x7d")).1.S3Set.ObjectNamePrefix =
          "custom/") := by
  have hgen : ∀ (setName : String) (setConfigJson : Bytes) (setConfig : S3Set),
      unmarshal setConfigJson S3Set.zero = (setConfig, none) →
      (s.ForSet unmarshal setName setConfigJson).1.S3Set.ObjectNamePrefix =
        if setConfig.ObjectNamePrefix = "" then setName ++ "/data_"
        else setConfig.ObjectNamePrefix := by
    intro setName setConfigJson setConfig hparse
    simp only [S3Adapter.ForSet, hparse]
    by_cases h : setConfig.ObjectNamePrefix = ""
    · simp only [h, if_true, DefaultObjectNamePrefix]
      rw [String.append_assoc]
      rfl
    · simp only [h, if_false]
  refine ⟨hgen, ?_, ?_⟩
  · intro h
    rw [hgen "orders" _ _ h]
    decide
  · intro h
    rw [hgen "orders" _ _ h]
    decide

/-- C6, on an adapter that holds the prefix "users/data_" from an earlier call. -/
theorem ForSet_defaulting_witness :
    (tableUnmarshal (jsonText "\x7b\x7d") S3Set.zero = (S3Set.zero, none) ∧
      tableUnmarshal (jsonText "\x7b\"ObjectNamePrefix\":\"custom/\"\x7d") S3Set.zero =
        ({ ObjectNamePrefix := "custom/" }, none)) ∧
    (exampleAdapter.ForSet tableUnmarshal "orders" (jsonText "\x7b\x7d")).1.S3Set.ObjectNamePrefix =
      "orders/data_" ∧
    (exampleAdapter.ForSet tableUnmarshal "orders"
      (jsonText "\x7b\"ObjectNamePrefix\":\"custom/\"\x7d")).1.S3Set.ObjectNamePrefix =
      "custom/" :=
  ⟨by decide, (ForSet_defaulting tableUnmarshal exampleAdapter).2.1 (by decide),
    (ForSet_defaulting tableUnmarshal exampleAdapter).2.2 (by decide)⟩

/-- C10: when the set configuration fails to parse, `ForSet` returns the error and leaves the
adapter as it was; when it parses, `ForSet` returns no error and changes nothing but `S3Set`. -/
theorem ForSet_frame {ρ : Type} (unmarshal : Unmarshaler S3Set) (s : S3Adapter ρ)
    (setName : String) (setConfigJson : Bytes) :
    (∀ (partly : S3Set) (err : String),
        unmarshal setConfigJson S3Set.zero = (partly, some err) →
        s.ForSet unmarshal setName setConfigJson = (s, some err)) ∧
      (∀ setConfig : S3Set, unmarshal setConfigJson S3Set.zero = (setConfig, none) →
        (s.ForSet unmarshal setName setConfigJson).2 = none ∧
        (s.ForSet unmarshal setName setConfigJson).1.DestinationConfig = s.DestinationConfig ∧
        (s.ForSet unmarshal setName setConfigJson).1.S3Config = s.S3Config) := by
  constructor
  · intro partly err h
    simp only [S3Adapter.ForSet, h]
  · intro setConfig h
    simp only [S3Adapter.ForSet, h]
    by_cases hp : setConfig.ObjectNamePrefix = ""
    · simp [hp]
    · simp [hp]

/-- C10, on a document the decoder rejects and on the empty object. -/
theorem ForSet_frame_witness :
    (tableUnmarshal (jsonText "[") S3Set.zero = (S3Set.zero, some "invalid character") ∧
      tableUnmarshal (jsonText "\x7b\x7d") S3Set.zero = (S3Set.zero, none)) ∧
    exampleAdapter.ForSet tableUnmarshal "orders" (jsonText "[") =
      (exampleAdapter, some "invalid character") ∧
    (exampleAdapter.ForSet tableUnmarshal "orders" (jsonText "\x7b\x7d")).1.S3Config =
      exampleAdapter.S3Config :=
  ⟨by decide,
    (ForSet_frame tableUnmarshal exampleAdapter "orders" (jsonText "[")).1 S3Set.zero
      "invalid character" (by decide),
    ((ForSet_frame tableUnmarshal exampleAdapter "orders" (jsonText "\x7b\x7d")).2 S3Set.zero
      (by decide)).2.2⟩

/-- The three runs of `Write`, by the outcome of the client initialisation and of the upload. -/
theorem Write_run {ρ : Type} (sdk : S3ClientFactory) (now : Int) (s : S3Adapter ρ) (data : Bytes)
    (eventLog : List Internal.EventLogItem) :
    s.Write sdk now data eventLog =
      match sdk s.S3Config.AwsConfig.Region s.S3Config.AwsConfig.AccessKeyId
          s.S3Config.AwsConfig.SecretAccessKey with
      | .error e =>
        (some ("error initializing S3 client: " ++ e),
          eventLog ++ [{ Level := Syslog.LOG_ALERT,
                         Message := "error saving to S3: " ++ ("error initializing S3 client: " ++ e) }],
          [S3Event.loadDefaultConfig s.S3Config.AwsConfig.Region s.S3Config.AwsConfig.AccessKeyId
            s.S3Config.AwsConfig.SecretAccessKey])
      | .ok client =>
        match client.PutObject
            { Bucket := s.S3Config.BucketName,
              Key := s.S3Set.ObjectNamePrefix ++ toString now, Body := data } with
        | some e =>
          (some ("error saving data to " ++ s.S3Config.BucketName ++ "/" ++
              (s.S3Set.ObjectNamePrefix ++ toString now) ++ ": " ++ e),
            eventLog ++ [{ Level := Syslog.LOG_ALERT,
                           Message := "error saving to S3: " ++
                             ("error saving data to " ++ s.S3Config.BucketName ++ "/" ++
                               (s.S3Set.ObjectNamePrefix ++ toString now) ++ ": " ++ e) }],
            [S3Event.loadDefaultConfig s.S3Config.AwsConfig.Region s.S3Config.AwsConfig.AccessKeyId
                s.S3Config.AwsConfig.SecretAccessKey,
              S3Event.putObject
                  { Bucket := s.S3Config.BucketName,
                    Key := s.S3Set.ObjectNamePrefix ++ toString now, Body := data }])
        | none =>
          (none,
            eventLog ++ [{ Level := Syslog.LOG_INFO,
                           Message := "saved to " ++ (s.S3Set.ObjectNamePrefix ++ toString now) ++
                             " on bucket " ++ s.S3Config.BucketName }],
            [S3Event.loadDefaultConfig s.S3Config.AwsConfig.Region s.S3Config.AwsConfig.AccessKeyId
                s.S3Config.AwsConfig.SecretAccessKey,
              S3Event.putObject
                  { Bucket := s.S3Config.BucketName,
                    Key := s.S3Set.ObjectNamePrefix ++ toString now, Body := data }]) := by
  simp only [S3Adapter.Write, S3Adapter.saveObject, S3Adapter.newS3Client]
  cases sdk s.S3Config.AwsConfig.Region s.S3Config.AwsConfig.AccessKeyId
      s.S3Config.AwsConfig.SecretAccessKey with
  | error e => rfl
  | ok client =>
    simp only []
    cases client.PutObject
        { Bucket := s.S3Config.BucketName,
          Key := s.S3Set.ObjectNamePrefix ++ toString now, Body := data } with
    | some e => rfl
    | none => rfl

/-- C7: `Write` pushes exactly one record on the event-log channel.  When the upload succeeds the
record has severity info, its message names the key of the storage request and the bucket, and no
error is returned; when the client initialisation or the upload fails the record has severity
alert, its message ends with the text of the error, and that error is returned. -/
theorem Write_reports {ρ : Type} (sdk : S3ClientFactory) (now : Int) (s : S3Adapter ρ)
    (data : Bytes) (eventLog : List Internal.EventLogItem) :
    (∃ item, (s.Write sdk now data eventLog).2.1 = eventLog ++ [item] ∧
      (((s.Write sdk now data eventLog).1 = none ∧ item.Level = Syslog.LOG_INFO) ∨
        (∃ err, (s.Write sdk now data eventLog).1 = some err ∧ item.Level = Syslog.LOG_ALERT ∧
          item.Message = "error saving to S3: " ++ err))) ∧
      (∀ client, sdk s.S3Config.AwsConfig.Region s.S3Config.AwsConfig.AccessKeyId
            s.S3Config.AwsConfig.SecretAccessKey = .ok client →
          client.PutObject
              { Bucket := s.S3Config.BucketName,
                Key := s.S3Set.ObjectNamePrefix ++ toString now, Body := data } = none →
          s.Write sdk now data eventLog =
            (none,
              eventLog ++ [{ Level := Syslog.LOG_INFO,
                             Message := "saved to " ++ (s.S3Set.ObjectNamePrefix ++ toString now) ++
                               " on bucket " ++ s.S3Config.BucketName }],
              [S3Event.loadDefaultConfig s.S3Config.AwsConfig.Region s.S3Config.AwsConfig.AccessKeyId
                  s.S3Config.AwsConfig.SecretAccessKey,
                S3Event.putObject
                    { Bucket := s.S3Config.BucketName,
                      Key := s.S3Set.ObjectNamePrefix ++ toString now, Body := data }])) ∧
      (∀ e, sdk s.S3Config.AwsConfig.Region s.S3Config.AwsConfig.AccessKeyId
            s.S3Config.AwsConfig.SecretAccessKey = .error e →
          s.Write sdk now data eventLog =
            (some ("error initializing S3 client: " ++ e),
              eventLog ++ [{ Level := Syslog.LOG_ALERT,
                             Message := "error saving to S3: " ++
                               ("error initializing S3 client: " ++ e) }],
              [S3Event.loadDefaultConfig s.S3Config.AwsConfig.Region s.S3Config.AwsConfig.AccessKeyId
                s.S3Config.AwsConfig.SecretAccessKey])) ∧
      (∀ client e, sdk s.S3Config.AwsConfig.Region s.S3Config.AwsConfig.AccessKeyId
            s.S3Config.AwsConfig.SecretAccessKey = .ok client →
          client.PutObject
              { Bucket := s.S3Config.BucketName,
                Key := s.S3Set.ObjectNamePrefix ++ toString now, Body := data } = some e →
          s.Write sdk now data eventLog =
            (some ("error saving data to " ++ s.S3Config.BucketName ++ "/" ++
                (s.S3Set.ObjectNamePrefix ++ toString now) ++ ": " ++ e),
              eventLog ++ [{ Level := Syslog.LOG_ALERT,
                             Message := "error saving to S3: " ++
                               ("error saving data to " ++ s.S3Config.BucketName ++ "/" ++
                                 (s.S3Set.ObjectNamePrefix ++ toString now) ++ ": " ++ e) }],
              [S3Event.loadDefaultConfig s.S3Config.AwsConfig.Region s.S3Config.AwsConfig.AccessKeyId
                  s.S3Config.AwsConfig.SecretAccessKey,
                S3Event.putObject
                    { Bucket := s.S3Config.BucketName,
                      Key := s.S3Set.ObjectNamePrefix ++ toString now, Body := data }])) := by
  rw [Write_run sdk now s data eventLog]
  refine ⟨?_, ?_, ?_, ?_⟩
  · cases sdk s.S3Config.AwsConfig.Region s.S3Config.AwsConfig.AccessKeyId
        s.S3Config.AwsConfig.SecretAccessKey with
    | error e => exact ⟨_, rfl, Or.inr ⟨_, rfl, rfl, rfl⟩⟩
    | ok client =>
      simp only []
      cases client.PutObject
          { Bucket := s.S3Config.BucketName,
            Key := s.S3Set.ObjectNamePrefix ++ toString now, Body := data } with
      | some e => exact ⟨_, rfl, Or.inr ⟨_, rfl, rfl, rfl⟩⟩
      | none => exact ⟨_, rfl, Or.inl ⟨rfl, rfl⟩⟩
  · intro client h1 h2
    simp only [h1, h2]
  · intro e h1
    simp only [h1]
  · intro client e h1 h2
    simp only [h1, h2]

/-- C7, on an upload the storage rejects. -/
theorem Write_reports_witness :
    S3Adapter.Write rejectingSdk 1700000000000000000 exampleAdapter [1, 2, 3] [] =
      (some "error saving data to archive/users/data_1700000000000000000: AccessDenied",
        [{ Level := Syslog.LOG_ALERT,
           Message := "error saving to S3: " ++
             "error saving data to archive/users/data_1700000000000000000: AccessDenied" }],
        [S3Event.loadDefaultConfig "us-east-1" "AKIDEXAMPLE" "secret",
          S3Event.putObject
            { Bucket := "archive", Key := "users/data_1700000000000000000", Body := [1, 2, 3] }]) :=
  (Write_reports rejectingSdk 1700000000000000000 exampleAdapter [1, 2, 3] []).2.2.2
    ⟨fun _ => some "AccessDenied"⟩ "AccessDenied" rfl rfl

/-- C8: the key of the storage request of `Write` is the adapter's prefix followed by the decimal
rendering of the clock reading, and two `Write` calls on the same adapter at clock readings
`t1 < t2` never request the same key. -/
theorem Write_keys_distinct {ρ : Type} (sdk1 sdk2 : S3ClientFactory) (s : S3Adapter ρ)
    (data1 data2 : Bytes) (log1 log2 : List Internal.EventLogItem) (t1 t2 : Int) (h : t1 < t2) :
    (∀ r ∈ putRequests (s.Write sdk1 t1 data1 log1).2.2,
        r.Key = s.S3Set.ObjectNamePrefix ++ toString t1) ∧
      (∀ r ∈ putRequests (s.Write sdk2 t2 data2 log2).2.2,
        r.Key = s.S3Set.ObjectNamePrefix ++ toString t2) ∧
      (∀ client, sdk1 s.S3Config.AwsConfig.Region s.S3Config.AwsConfig.AccessKeyId
            s.S3Config.AwsConfig.SecretAccessKey = .ok client →
          putRequests (s.Write sdk1 t1 data1 log1).2.2 =
            [{ Bucket := s.S3Config.BucketName,
               Key := s.S3Set.ObjectNamePrefix ++ toString t1, Body := data1 }]) ∧
      (∀ r1 ∈ putRequests (s.Write sdk1 t1 data1 log1).2.2,
        ∀ r2 ∈ putRequests (s.Write sdk2 t2 data2 log2).2.2, r1.Key ≠ r2.Key) ∧
      s.S3Set.ObjectNamePrefix ++ toString t1 ≠ s.S3Set.ObjectNamePrefix ++ toString t2 := by
  have hkey : ∀ (sdk : S3ClientFactory) (t : Int) (data : Bytes)
      (evlog : List Internal.EventLogItem),
      ∀ r ∈ putRequests (s.Write sdk t data evlog).2.2,
        r.Key = s.S3Set.ObjectNamePrefix ++ toString t := by
    intro sdk t data evlog r hr
    rw [Write_run sdk t s data evlog] at hr
    cases hsdk : sdk s.S3Config.AwsConfig.Region s.S3Config.AwsConfig.AccessKeyId
        s.S3Config.AwsConfig.SecretAccessKey with
    | error e =>
      rw [hsdk] at hr
      simp [putRequests] at hr
    | ok client =>
      rw [hsdk] at hr
      simp only [] at hr
      cases hput : client.PutObject
          { Bucket := s.S3Config.BucketName,
            Key := s.S3Set.ObjectNamePrefix ++ toString t, Body := data } with
      | some e =>
        rw [hput] at hr
        simp [putRequests] at hr
        rw [hr]
      | none =>
        rw [hput] at hr
        simp [putRequests] at hr
        rw [hr]
  have hne := append_toString_ne s.S3Set.ObjectNamePrefix t1 t2 (ne_of_lt h)
  refine ⟨hkey sdk1 t1 data1 log1, hkey sdk2 t2 data2 log2, ?_, ?_, hne⟩
  · intro client hsdk
    rw [Write_run sdk1 t1 s data1 log1, hsdk]
    simp only []
    cases client.PutObject
        { Bucket := s.S3Config.BucketName,
          Key := s.S3Set.ObjectNamePrefix ++ toString t1, Body := data1 } <;> rfl
  · intro r1 h1 r2 h2 heq
    rw [hkey sdk1 t1 data1 log1 r1 h1, hkey sdk2 t2 data2 log2 r2 h2] at heq
    exact hne heq

/-- C8, on two uploads one nanosecond apart. -/
theorem Write_keys_distinct_witness :
    (1700000000000000000 : Int) < 1700000000000000001 ∧
    putRequests (S3Adapter.Write acceptingSdk 1700000000000000000 exampleAdapter [1] []).2.2 =
      [{ Bucket := "archive", Key := "users/data_1700000000000000000", Body := [1] }] ∧
    ("users/data_" ++ toString (1700000000000000000 : Int) : String) ≠
      "users/data_" ++ toString (1700000000000000001 : Int) :=
  ⟨by decide,
    (Write_keys_distinct acceptingSdk rejectingSdk exampleAdapter [1] [2] [] []
      1700000000000000000 1700000000000000001 (by decide)).2.2.1 ⟨fun _ => none⟩ rfl,
    (Write_keys_distinct acceptingSdk rejectingSdk exampleAdapter [1] [2] [] []
      1700000000000000000 1700000000000000001 (by decide)).2.2.2.2⟩

end Aws
